import Mathlib

/-!
# Verification of the worker supervision core (magento2-worker-daemon)

Shallow embedding of the Rust sources `src/config.rs`, `src/worker.rs`,
`src/main.rs` and `src/util.rs`.

The Rust `WorkerProcess` owns a `Vec<std::process::Child>`.  A child process
is modelled here through two independent aspects:

* the command it is spawned with (`SpawnedCommand`, built by `run_worker`);
* its liveness behaviour as observed by the OS through `try_wait`
  (`ChildState`, driven by `is_running` / `try_stop_gracefully`).

External effects (the OS answering `try_wait`, the outcome of `spawn`, the
value of the shutdown flag at each loop iteration) are passed in as explicit
environment parameters, and the logging side effects of the Rust code carry
no state, so every function below is a pure function of its inputs.
-/

/-! ## config.rs -/

/-- `DaemonConfig` from `config.rs` (the fields the supervision core reads). -/
structure DaemonConfig where
  magento_dir : String
  rabbitmq_configured : Bool
deriving DecidableEq

/-- `MagentoConsumerConfig` from `config.rs`.  The Rust
`HashMap<String, i32>` field `multiple_processes` is modelled as an
association list with lookup `hashmap_get` (a `HashMap` holds each key at
most once); `max_messages : u32` and the `i32` values become `Nat` / `Int`. -/
structure MagentoConsumerConfig where
  cron_run : Bool
  max_messages : Nat
  consumers : List String
  multiple_processes : List (String × Int)
deriving DecidableEq

/-- serde default for `cron_run` (`default_cron_run` in `config.rs`). -/
def default_cron_run : Bool := true

/-- serde default for `max_messages` (`default_max_messages` in `config.rs`). -/
def default_max_messages : Nat := 10000

/-- `HashMap::get`: the value stored under key `k`, if any. -/
def hashmap_get (m : List (String × Int)) (k : String) : Option Int :=
  (m.find? (fun p => p.1 == k)).map (fun p => p.2)

/-- `EnvironmentError` from `config.rs`. -/
structure EnvironmentError where
  message : String
deriving DecidableEq

/-- `MagentoConsumerConfig::validate` from `config.rs`: rejects an enabled
cron worker, then rejects any negative `multiple_processes` value (the Rust
check is `*x < 0`). -/
def MagentoConsumerConfig.validate (c : MagentoConsumerConfig) :
    Except EnvironmentError Unit :=
  if c.cron_run then
    .error ⟨"Magento cron worker is enabled. Please see https://experienceleague.adobe.com/docs/commerce-operations/configuration-guide/message-queues/manage-message-queues.html#configuration to see how to disable the cron_run variable."⟩
  else if c.multiple_processes.any (fun x => decide (x.2 < 0)) then
    .error ⟨"Magento consumer multiple_processes values must be greater than zero"⟩
  else
    .ok ()

/-- `DaemonContext` from `config.rs`. -/
structure DaemonContext where
  daemon_config : DaemonConfig
  consumer_config : MagentoConsumerConfig
deriving DecidableEq

/-! ## worker.rs: constants and consumer discovery -/

/-- `RABBITMQ_CONSUMER_NAMES` from `worker.rs`. -/
def RABBITMQ_CONSUMER_NAMES : List String := ["async.operations.all"]

/-- `PROCESS_GRACEFUL_KILL_PERIOD` from `worker.rs`, in milliseconds. -/
def PROCESS_GRACEFUL_KILL_PERIOD : Nat := 500

/-- `PROCESS_GRACEFUL_POLL_RESOLUTION` from `worker.rs`, in milliseconds. -/
def PROCESS_GRACEFUL_POLL_RESOLUTION : Nat := 20

/-- `read_consumer_list` from `worker.rs`, as a function of the stdout of
`bin/magento queue:consumers:list`: split on newlines, drop empty lines,
and when RabbitMQ is not configured drop the reserved RabbitMQ consumer
names. -/
def read_consumer_list (stdout : String) (config : DaemonConfig) : List String :=
  ((stdout.split (fun c => c == '\n')).filter (fun x => !x.isEmpty)).filter
    (fun x =>
      if !config.rabbitmq_configured then !(RABBITMQ_CONSUMER_NAMES.contains x)
      else true)

/-! ## worker.rs: run_worker (spawn layer) -/

/-- One spawned `std::process::Command`: program, working directory and
argument list. -/
structure SpawnedCommand where
  program : String
  current_dir : String
  args : List String
deriving DecidableEq

/-- The instance count chosen by `run_worker`: the consumer's
`multiple_processes` entry, defaulting to `1` when absent. -/
def number_of_processes (ctx : DaemonContext) (consumer : String) : Int :=
  match hashmap_get ctx.consumer_config.multiple_processes consumer with
  | some processes => processes
  | none => 1

/-- The command `run_worker` builds for instance `i` of `consumer`
(`n` is `number_of_processes`): `bin/magento queue:consumers:start <consumer>
--max-messages <cap>` followed by `--multi-process <i>` when `n > 1` and by
`--single-thread` otherwise. -/
def consumer_start_command (ctx : DaemonContext) (consumer : String)
    (n : Int) (i : Nat) : SpawnedCommand :=
  { program := "bin/magento"
    current_dir := ctx.daemon_config.magento_dir
    args := ["queue:consumers:start", consumer, "--max-messages",
        toString ctx.consumer_config.max_messages] ++
      (if 1 < n then ["--multi-process", toString i] else ["--single-thread"]) }

/-- The sequence of commands spawned by `run_worker`'s `for i in 0..n` loop
(for `n ≤ 0` the Rust range `0..n` is empty, which `Int.toNat` captures). -/
def run_worker_commands (ctx : DaemonContext) (consumer : String) :
    List SpawnedCommand :=
  (List.range (number_of_processes ctx consumer).toNat).map
    (consumer_start_command ctx consumer (number_of_processes ctx consumer))

/-- The `WorkerProcess` struct from `worker.rs`, at the spawn layer: the
consumer name and, for each owned child, the command it was spawned with. -/
structure WorkerProcessSpawned where
  consumer : String
  processes : List SpawnedCommand
deriving DecidableEq

/-- The panic message of `run_worker`'s `spawn().expect(..)`. -/
def SPAWN_PANIC_MESSAGE : String := "Failed to run bin/magento queue:consumers:start"

/-- The spawn loop of `run_worker`: `env i` tells whether the `i`-th
`Command::spawn` call succeeds.  On the first failing spawn the Rust code
panics (`expect`), modelled as `Except.error` with the panic message; the
panic aborts the loop before any later instance is spawned. -/
def spawn_processes (env : Nat → Bool) :
    List SpawnedCommand → Nat → Except String (List SpawnedCommand)
  | [], _ => .ok []
  | cmd :: rest, i =>
    if env i then
      match spawn_processes env rest (i + 1) with
      | .ok ps => .ok (cmd :: ps)
      | .error e => .error e
    else
      .error SPAWN_PANIC_MESSAGE

/-- `run_worker` from `worker.rs` with its spawn outcomes made explicit:
either the fully spawned `WorkerProcess`, or the panic raised by the first
failing spawn. -/
def run_workerE (env : Nat → Bool) (ctx : DaemonContext) (consumer : String) :
    Except String WorkerProcessSpawned :=
  match spawn_processes env (run_worker_commands ctx consumer) 0 with
  | .ok ps => .ok { consumer := consumer, processes := ps }
  | .error e => .error e

/-- `WorkerProcess::restart` at the spawn layer: `terminate()` (which stops
the old handles and never spawns, hence never panics) followed by
`self.processes = run_worker(&context, &self.consumer).processes`; a panic
of `run_worker` propagates out of `restart`. -/
def WorkerProcessSpawned.restartE (env : Nat → Bool) (ctx : DaemonContext)
    (wp : WorkerProcessSpawned) : Except String WorkerProcessSpawned :=
  match run_workerE env ctx wp.consumer with
  | .ok fresh => .ok { wp with processes := fresh.processes }
  | .error e => .error e

/-! ## worker.rs: liveness layer

One `std::process::Child`, as observed through `try_wait`:

* `exited` — whether `try_wait` currently reports the process gone, i.e.
  returns `Ok(Some(status))` or `Err(_)` (the Rust `is_running` maps both
  to `false`, `Ok(None)` to `true`);
* `exitCheck` — the process's reaction to the graceful-termination signal:
  counting the liveness polls inside `try_stop_gracefully`'s wait loop from
  `0`, the poll numbered `exitCheck` is the first to observe the process
  exited (`none`: the process ignores the signal and never exits by
  itself). -/
structure ChildState where
  exited : Bool
  exitCheck : Option Nat
deriving DecidableEq

/-- `is_running` from `worker.rs` (the `WorkerChildProcess` trait): the
current non-blocking `try_wait` observation. -/
def is_running (c : ChildState) : Bool := !c.exited

/-- The `is_running` observation at poll number `k` of the wait loop, after
the graceful-termination signal was sent: still running iff the first
exited poll `exitCheck` has not been reached. -/
def isRunningAt (c : ChildState) (k : Nat) : Bool :=
  match c.exitCheck with
  | none => true
  | some e => decide (k < e)

/-- Outcome of `try_stop_gracefully` on one child. -/
inductive StopResult where
  /-- The child was already exited: the function returned at once, sending
  no signal, killing nothing and not waiting. -/
  | skipped : StopResult
  /-- SIGTERM was sent; the wait loop observed the process exited at poll
  number `polls` (elapsed waiting time `20 * polls` ms, within the grace
  period); the child was then reaped by the blocking `wait()`. -/
  | gracefulExit (polls : Nat) : StopResult
  /-- SIGTERM was sent; the process was still alive when the waiting time
  reached the grace period, so `kill()` was issued; the child was then
  reaped by the blocking `wait()`. -/
  | forceKilled : StopResult
deriving DecidableEq

/-- The wait loop of `try_stop_gracefully`, at poll number `k` (elapsed
`waiting_time` is `PROCESS_GRACEFUL_POLL_RESOLUTION * k` ms, since every
iteration sleeps for exactly the poll resolution): while the process is
still running, force-kill once the waiting time has reached the grace
period, otherwise sleep and poll again. -/
def stopLoop (c : ChildState) (k : Nat) : StopResult :=
  if isRunningAt c k then
    if PROCESS_GRACEFUL_KILL_PERIOD ≤ PROCESS_GRACEFUL_POLL_RESOLUTION * k then
      .forceKilled
    else
      stopLoop c (k + 1)
  else
    .gracefulExit k
termination_by 26 - k
decreasing_by
  simp only [PROCESS_GRACEFUL_KILL_PERIOD, PROCESS_GRACEFUL_POLL_RESOLUTION] at *
  omega

/-- `try_stop_gracefully` from `worker.rs`: return immediately if the child
already exited, otherwise send SIGTERM (`terminate_process_child` from
`util.rs`), run the wait loop starting at `waiting_time = 0`, and finally
reap with the blocking `wait()`. -/
def try_stop_gracefully (c : ChildState) : StopResult :=
  if !is_running c then .skipped
  else stopLoop c 0

/-- Whether the graceful-termination signal was sent to the child. -/
def StopResult.sigtermSent : StopResult → Bool
  | .skipped => false
  | _ => true

/-- Whether `kill()` was issued on the child. -/
def StopResult.wasForceKilled : StopResult → Bool
  | .forceKilled => true
  | _ => false

/-- Whether the blocking `wait()` reaped the child. -/
def StopResult.reaped : StopResult → Bool
  | .skipped => false
  | _ => true

/-- Whether the OS still observes the process alive when
`try_stop_gracefully` returns: a skipped child keeps its current (exited)
observation; a graceful exit was observed by the last liveness poll; a
force-killed child received SIGKILL and was reaped by the blocking
`wait()`, after which the OS no longer reports it alive. -/
def ChildState.aliveAfterStop (c : ChildState) : Bool :=
  match try_stop_gracefully c with
  | .skipped => is_running c
  | .gracefulExit k => isRunningAt c k
  | .forceKilled => false

/-- The `WorkerProcess` struct from `worker.rs`, at the liveness layer. -/
structure WorkerProcess where
  consumer : String
  processes : List ChildState
deriving DecidableEq

/-- `WorkerProcess::terminate`: run `try_stop_gracefully` on every owned
handle, in order; the returned list records what happened to each. -/
def WorkerProcess.terminate (wp : WorkerProcess) : List StopResult :=
  wp.processes.map try_stop_gracefully

/-- The state of one child handle after `try_stop_gracefully`: the handle
stays in the vector, and every later `try_wait` reports the process gone
(it either exited or was killed, and was reaped). -/
def stopChild (c : ChildState) : ChildState := { c with exited := true }

/-- The `WorkerProcess` state after `terminate` returns: `terminate`
mutates each child in place via `iter_mut` and never touches the vector
itself. -/
def WorkerProcess.terminateState (wp : WorkerProcess) : WorkerProcess :=
  { wp with processes := wp.processes.map stopChild }

/-- `WorkerProcess::restart` at the liveness layer: `terminate()` (the
returned `StopResult`s record its effect on the old handles) followed by
`self.processes = run_worker(&context, &self.consumer).processes`.  The
fresh handles' OS behaviour is environment-determined and passed in as
`fresh`; the commands they are spawned with are `run_worker_commands`. -/
def WorkerProcess.restart (wp : WorkerProcess) (fresh : List ChildState) :
    List StopResult × WorkerProcess :=
  (wp.terminate, { wp with processes := fresh })

/-- `WorkerProcess::ensure_running`: poll `is_running` on every owned
handle (`Iterator::all`); when not all report running, restart.  The first
component records the `try_stop_gracefully` outcomes of a restart (empty
when no restart happened). -/
def WorkerProcess.ensure_running (wp : WorkerProcess) (fresh : List ChildState) :
    List StopResult × WorkerProcess :=
  let is_running_all := wp.processes.all is_running
  if !is_running_all then wp.restart fresh else ([], wp)

/-! ## main.rs: the supervisor main loop

`main` (old-style `main.rs`) registers the termination signals into the
atomic flag `term`, then repeats, while the flag is unset: for each worker
process in creation order, `if !process.is_running() { process.restart(&config) }`,
then sleep for the poll interval.  Once the flag is observed set at the top
of an iteration, the loop exits and every worker process is terminated in
creation order.  The model below records the externally visible events;
`term t` is the flag value observed at the top of iteration `t`, and
`running t i` is the OS answer to the `is_running` check of unit `i` during
iteration `t`. -/

/-- One externally visible action of the supervisor main loop. -/
inductive SupervisorEvent where
  /-- During poll iteration `tick`, unit `unit` was observed not running
  and was restarted. -/
  | restarted (tick : Nat) (unit : Nat) : SupervisorEvent
  /-- After the loop exited, unit `unit` was terminated. -/
  | terminated (unit : Nat) : SupervisorEvent
deriving DecidableEq

/-- The body of one poll iteration over the `n` worker processes, in
creation order: restart exactly the units observed not running. -/
def poll_tick (running : Nat → Nat → Bool) (n tick : Nat) : List SupervisorEvent :=
  (List.range n).filterMap
    (fun i => if running tick i then none else some (.restarted tick i))

/-- The supervisor main loop from `main`, started at iteration `tick`,
producing the sequence of its externally visible events.  `fuel` bounds how
many iterations are unrolled; when the shutdown flag is observed set at the
top of an iteration the loop exits and terminates every unit in creation
order.  (With exhausted fuel the model truncates the still-running loop and
reports no events.) -/
def main_loop (term : Nat → Bool) (running : Nat → Nat → Bool) (n : Nat) :
    Nat → Nat → List SupervisorEvent
  | 0, _ => []
  | fuel + 1, tick =>
    if term tick then
      (List.range n).map (fun i => .terminated i)
    else
      poll_tick running n tick ++ main_loop term running n fuel (tick + 1)

/-! ## Spec-side definition and concrete example configurations -/

/-- The consumer-list selection as the spec words it (§6 ConfigProvider
contract): the non-empty lines of the command output, in order; when the
message-broker capability flag is false every reserved RabbitMQ consumer
name is excluded; when it is true all non-empty lines are included.  Stated
separately from `read_consumer_list` so the two can be compared. -/
def read_consumer_list_spec (stdout : String) (config : DaemonConfig) : List String :=
  let lines := (stdout.split (fun c => c == '\n')).filter (fun x => !x.isEmpty)
  if config.rabbitmq_configured then lines
  else lines.filter (fun x => !(RABBITMQ_CONSUMER_NAMES.contains x))

/-- A consumer configuration whose only `multiple_processes` entry is `0`:
zero is not a positive integer, yet the `*x < 0` check lets it through. -/
def cfgZeroInstances : MagentoConsumerConfig :=
  { cron_run := false
    max_messages := default_max_messages
    consumers := ["export_consumer"]
    multiple_processes := [("export_consumer", 0)] }

/-- The same configuration with the entry `-1`, which the check rejects. -/
def cfgNegativeInstances : MagentoConsumerConfig :=
  { cfgZeroInstances with multiple_processes := [("export_consumer", -1)] }

/-- A minimal valid consumer configuration with no `multiple_processes`
entries. -/
def cfgPlain : MagentoConsumerConfig :=
  { cron_run := false
    max_messages := default_max_messages
    consumers := ["export_consumer"]
    multiple_processes := [] }

/-- A daemon context over `cfgPlain`. -/
def ctxPlain : DaemonContext :=
  { daemon_config := { magento_dir := "/var/www/magento", rabbitmq_configured := false }
    consumer_config := cfgPlain }

/-- A daemon context over `cfgZeroInstances`. -/
def ctxZeroInstances : DaemonContext :=
  { daemon_config := { magento_dir := "/var/www/magento", rabbitmq_configured := false }
    consumer_config := cfgZeroInstances }

/-! ## Lemmas about the graceful-termination wait loop -/

/-- A child that ignores SIGTERM is force-killed once the waiting time
reaches the grace period. -/
theorem stopLoop_none (c : ChildState) (hc : c.exitCheck = none) :
    ∀ d k, 26 - k ≤ d → stopLoop c k = .forceKilled := by
  intro d
  induction d with
  | zero =>
    intro k hk
    rw [stopLoop]
    have hrun : isRunningAt c k = true := by simp [isRunningAt, hc]
    rw [hrun]
    have hg : PROCESS_GRACEFUL_KILL_PERIOD ≤ PROCESS_GRACEFUL_POLL_RESOLUTION * k := by
      simp only [PROCESS_GRACEFUL_KILL_PERIOD, PROCESS_GRACEFUL_POLL_RESOLUTION]
      omega
    simp [hg]
  | succ d ih =>
    intro k hk
    rw [stopLoop]
    have hrun : isRunningAt c k = true := by simp [isRunningAt, hc]
    rw [hrun]
    by_cases hg : PROCESS_GRACEFUL_KILL_PERIOD ≤ PROCESS_GRACEFUL_POLL_RESOLUTION * k
    · simp [hg]
    · simp only [if_pos rfl, if_neg hg, if_true]
      exact ih (k + 1) (by omega)

/-- A child that exits at poll `e` within the grace period is observed to
exit gracefully at that poll. -/
theorem stopLoop_graceful (c : ChildState) (e : Nat) (hc : c.exitCheck = some e)
    (he : e ≤ 25) : ∀ d k, e - k ≤ d → k ≤ e → stopLoop c k = .gracefulExit e := by
  intro d
  induction d with
  | zero =>
    intro k hk hke
    have hkeq : k = e := by omega
    subst hkeq
    rw [stopLoop]
    have hrun : isRunningAt c k = false := by simp [isRunningAt, hc]
    simp [hrun]
  | succ d ih =>
    intro k hk hke
    by_cases hkeq : k = e
    · subst hkeq
      rw [stopLoop]
      have hrun : isRunningAt c k = false := by simp [isRunningAt, hc]
      simp [hrun]
    · have hklt : k < e := by omega
      rw [stopLoop]
      have hrun : isRunningAt c k = true := by simp [isRunningAt, hc, hklt]
      rw [hrun]
      have hg : ¬ PROCESS_GRACEFUL_KILL_PERIOD ≤ PROCESS_GRACEFUL_POLL_RESOLUTION * k := by
        simp only [PROCESS_GRACEFUL_KILL_PERIOD, PROCESS_GRACEFUL_POLL_RESOLUTION]
        omega
      simp only [if_pos rfl, if_neg hg, if_true]
      exact ih (k + 1) (by omega) (by omega)

/-- A child whose exit would only be observed after the grace period is
force-killed. -/
theorem stopLoop_late (c : ChildState) (e : Nat) (hc : c.exitCheck = some e)
    (he : 25 < e) : ∀ d k, 25 - k ≤ d → k ≤ 25 → stopLoop c k = .forceKilled := by
  intro d
  induction d with
  | zero =>
    intro k hk hk25
    have hkeq : k = 25 := by omega
    rw [stopLoop]
    have hrun : isRunningAt c k = true := by simp [isRunningAt, hc]; omega
    rw [hrun]
    have hg : PROCESS_GRACEFUL_KILL_PERIOD ≤ PROCESS_GRACEFUL_POLL_RESOLUTION * k := by
      simp only [PROCESS_GRACEFUL_KILL_PERIOD, PROCESS_GRACEFUL_POLL_RESOLUTION]
      omega
    simp [hg]
  | succ d ih =>
    intro k hk hk25
    by_cases hkeq : k = 25
    · rw [stopLoop]
      have hrun : isRunningAt c k = true := by simp [isRunningAt, hc]; omega
      rw [hrun]
      have hg : PROCESS_GRACEFUL_KILL_PERIOD ≤ PROCESS_GRACEFUL_POLL_RESOLUTION * k := by
        simp only [PROCESS_GRACEFUL_KILL_PERIOD, PROCESS_GRACEFUL_POLL_RESOLUTION]
        omega
      simp [hg]
    · have hklt : k < 25 := by omega
      rw [stopLoop]
      have hrun : isRunningAt c k = true := by simp [isRunningAt, hc]; omega
      rw [hrun]
      have hg : ¬ PROCESS_GRACEFUL_KILL_PERIOD ≤ PROCESS_GRACEFUL_POLL_RESOLUTION * k := by
        simp only [PROCESS_GRACEFUL_KILL_PERIOD, PROCESS_GRACEFUL_POLL_RESOLUTION]
        omega
      simp only [if_pos rfl, if_neg hg, if_true]
      exact ih (k + 1) (by omega) (by omega)

/-- Full case analysis of `try_stop_gracefully` on one child. -/
theorem try_stop_gracefully_cases (c : ChildState) :
    (is_running c = false → try_stop_gracefully c = .skipped) ∧
    (is_running c = true → c.exitCheck = none → try_stop_gracefully c = .forceKilled) ∧
    (∀ e, is_running c = true → c.exitCheck = some e → e ≤ 25 →
      try_stop_gracefully c = .gracefulExit e) ∧
    (∀ e, is_running c = true → c.exitCheck = some e → 25 < e →
      try_stop_gracefully c = .forceKilled) := by
  refine ⟨?_, ?_, ?_, ?_⟩
  · intro h
    simp [try_stop_gracefully, h]
  · intro h hc
    simp only [try_stop_gracefully, h, Bool.not_true, Bool.false_eq_true, if_false]
    exact stopLoop_none c hc 26 0 (by omega)
  · intro e h hc he
    simp only [try_stop_gracefully, h, Bool.not_true, Bool.false_eq_true, if_false]
    exact stopLoop_graceful c e hc he e 0 (by omega) (by omega)
  · intro e h hc he
    simp only [try_stop_gracefully, h, Bool.not_true, Bool.false_eq_true, if_false]
    exact stopLoop_late c e hc he 25 0 (by omega) (by omega)

/-- No matter how the child behaves, the OS no longer observes it alive
when `try_stop_gracefully` returns. -/
theorem aliveAfterStop_false (c : ChildState) : c.aliveAfterStop = false := by
  obtain ⟨h1, h2, h3, h4⟩ := try_stop_gracefully_cases c
  by_cases h : is_running c
  · cases hc : c.exitCheck with
    | none =>
      rw [ChildState.aliveAfterStop, h2 h hc]
    | some e =>
      by_cases he : e ≤ 25
      · rw [ChildState.aliveAfterStop, h3 e h hc he]
        simp [isRunningAt, hc]
      · rw [ChildState.aliveAfterStop, h4 e h hc (by omega)]
  · rw [ChildState.aliveAfterStop, h1 (by simpa using h)]
    simpa using h

/-! ## Further supporting lemmas -/

/-- A configuration that passes `validate` has no negative
`multiple_processes` value. -/
theorem validate_ok_nonneg (c : MagentoConsumerConfig)
    (h : c.validate = .ok ()) : ∀ p ∈ c.multiple_processes, 0 ≤ p.2 := by
  intro p hp
  by_contra hneg
  push_neg at hneg
  unfold MagentoConsumerConfig.validate at h
  by_cases hcr : c.cron_run
  · simp [hcr] at h
  · have hany : c.multiple_processes.any (fun x => decide (x.2 < 0)) = true := by
      rw [List.any_eq_true]
      exact ⟨p, hp, by simpa using hneg⟩
    simp [hcr, hany] at h

/-- As soon as one of the spawn calls issued for the given command list
fails, the spawn loop panics with the `expect` message. -/
theorem spawn_processes_fails (env : Nat → Bool) :
    ∀ (cmds : List SpawnedCommand) (i0 : Nat),
      (∃ j, j < cmds.length ∧ env (i0 + j) = false) →
      spawn_processes env cmds i0 = .error SPAWN_PANIC_MESSAGE := by
  intro cmds
  induction cmds with
  | nil =>
    rintro i0 ⟨j, hj, _⟩
    simp at hj
  | cons cmd rest ih =>
    rintro i0 ⟨j, hj, henv⟩
    by_cases h0 : env i0
    · have hj0 : j ≠ 0 := by
        rintro rfl
        rw [Nat.add_zero, h0] at henv
        cases henv
      obtain ⟨j', rfl⟩ : ∃ j', j = j' + 1 := ⟨j - 1, by omega⟩
      have hrec : spawn_processes env rest (i0 + 1) = .error SPAWN_PANIC_MESSAGE := by
        refine ih (i0 + 1) ⟨j', by simp at hj; omega, ?_⟩
        have : i0 + (j' + 1) = i0 + 1 + j' := by omega
        rw [← this]
        exact henv
      simp [spawn_processes, h0, hrec]
    · simp only [Bool.not_eq_true] at h0
      simp [spawn_processes, h0]

/-- Trace shape of the main loop once the shutdown flag is first set at
iteration `T`: all prior iterations only restart units they observed not
running, and the trace ends with the termination of every unit in creation
order. -/
theorem main_loop_events (term : Nat → Bool) (running : Nat → Nat → Bool)
    (n T : Nat) (hT : term T = true) (hmin : ∀ t, t < T → term t = false) :
    ∀ fuel tick, tick ≤ T → T - tick < fuel →
      ∃ pre, main_loop term running n fuel tick =
          pre ++ (List.range n).map (fun i => SupervisorEvent.terminated i) ∧
        ∀ e ∈ pre, ∃ t i, e = SupervisorEvent.restarted t i ∧ tick ≤ t ∧ t < T ∧
          term t = false ∧ running t i = false := by
  intro fuel
  induction fuel with
  | zero =>
    intro tick h1 h2
    omega
  | succ fuel ih =>
    intro tick h1 h2
    by_cases htick : tick = T
    · refine ⟨[], ?_, by simp⟩
      simp only [main_loop, htick, hT, if_true, List.nil_append]
    · have hlt : tick < T := by omega
      have hterm : term tick = false := hmin tick hlt
      obtain ⟨pre, hpre, hev⟩ := ih (tick + 1) (by omega) (by omega)
      refine ⟨poll_tick running n tick ++ pre, ?_, ?_⟩
      · simp only [main_loop, hterm, Bool.false_eq_true, if_false, hpre,
          List.append_assoc]
      · intro e he
        rcases List.mem_append.mp he with hin | hin
        · simp only [poll_tick, List.mem_filterMap, List.mem_range] at hin
          obtain ⟨i, _, hi⟩ := hin
          by_cases hr : running tick i
          · simp [hr] at hi
          · simp only [Bool.not_eq_true] at hr
            simp only [hr, Bool.false_eq_true, if_false, Option.some.injEq] at hi
            exact ⟨tick, i, hi.symm, Nat.le_refl _, hlt, hterm, hr⟩
        · obtain ⟨t, i, he', ht1, ht2, ht3, ht4⟩ := hev e hin
          exact ⟨t, i, he', by omega, ht2, ht3, ht4⟩

/-! ## The claims -/

/-- C1: for every `WorkerProcess`, `terminate()` processes every owned
handle, returning only after each has exited and been reaped: a handle
already exited is skipped; a handle still alive is sent SIGTERM, polled at
the fixed 20 ms resolution (`PROCESS_GRACEFUL_POLL_RESOLUTION`) until it
exits or the 500 ms grace period (`PROCESS_GRACEFUL_KILL_PERIOD`) elapses
— it exits gracefully at some poll `e` with `20 * e ≤ 500` ms, or is
force-killed — and is finally reaped by the blocking `wait()`; in every
case the OS no longer observes the handle alive when `terminate()`
returns. -/
theorem terminate_stops_every_child (wp : WorkerProcess) :
    ∀ c ∈ wp.processes,
      try_stop_gracefully c ∈ wp.terminate ∧
      (is_running c = false → try_stop_gracefully c = .skipped) ∧
      (is_running c = true →
        (try_stop_gracefully c).sigtermSent = true ∧
        (try_stop_gracefully c).reaped = true ∧
        ((∃ e, c.exitCheck = some e ∧
            PROCESS_GRACEFUL_POLL_RESOLUTION * e ≤ PROCESS_GRACEFUL_KILL_PERIOD ∧
            try_stop_gracefully c = .gracefulExit e) ∨
          ((∀ e, c.exitCheck = some e →
              PROCESS_GRACEFUL_KILL_PERIOD < PROCESS_GRACEFUL_POLL_RESOLUTION * e) ∧
            try_stop_gracefully c = .forceKilled))) ∧
      c.aliveAfterStop = false := by
  intro c hc
  obtain ⟨h1, h2, h3, h4⟩ := try_stop_gracefully_cases c
  refine ⟨List.mem_map_of_mem _ hc, h1, ?_, aliveAfterStop_false c⟩
  intro hrun
  cases hcheck : c.exitCheck with
  | none =>
    have hres := h2 hrun hcheck
    refine ⟨by rw [hres]; rfl, by rw [hres]; rfl, Or.inr ⟨?_, hres⟩⟩
    intro e he
    cases he
  | some e =>
    by_cases he : e ≤ 25
    · have hres := h3 e hrun hcheck he
      refine ⟨by rw [hres]; rfl, by rw [hres]; rfl, Or.inl ⟨e, rfl, ?_, hres⟩⟩
      simp only [PROCESS_GRACEFUL_POLL_RESOLUTION, PROCESS_GRACEFUL_KILL_PERIOD]
      omega
    · have hres := h4 e hrun hcheck (by omega)
      refine ⟨by rw [hres]; rfl, by rw [hres]; rfl, Or.inr ⟨?_, hres⟩⟩
      intro e' he'
      injection he' with heq
      simp only [PROCESS_GRACEFUL_POLL_RESOLUTION, PROCESS_GRACEFUL_KILL_PERIOD]
      omega

/-- Witness for C1 at a concrete unit: a child that exits at the fourth
liveness poll after SIGTERM is no longer alive when `terminate()` returns. -/
theorem terminate_stops_every_child_witness :
    ChildState.aliveAfterStop ⟨false, some 3⟩ = false := by
  have h := terminate_stops_every_child ⟨"export_consumer", [⟨false, some 3⟩]⟩
    ⟨false, some 3⟩ (by simp)
  exact h.2.2.2

/-- C8: `terminate()` on a `WorkerProcess` all of whose children have
already exited is a no-op: every handle is skipped (no SIGTERM is sent, no
`kill()` is issued, no `wait()` is entered, so none of their panics can
fire), and the unit's state is unchanged. -/
theorem terminate_noop_on_stopped (wp : WorkerProcess)
    (h : ∀ c ∈ wp.processes, is_running c = false) :
    (∀ r ∈ wp.terminate, r = StopResult.skipped) ∧
    (∀ r ∈ wp.terminate,
      r.sigtermSent = false ∧ r.wasForceKilled = false ∧ r.reaped = false) ∧
    wp.terminateState = wp := by
  have hskip : ∀ r ∈ wp.terminate, r = StopResult.skipped := by
    intro r hr
    obtain ⟨c, hc, rfl⟩ := List.mem_map.mp hr
    exact (try_stop_gracefully_cases c).1 (h c hc)
  refine ⟨hskip, ?_, ?_⟩
  · intro r hr
    rw [hskip r hr]
    exact ⟨rfl, rfl, rfl⟩
  · have hmap : wp.processes.map stopChild = wp.processes := by
      have hfix : ∀ c ∈ wp.processes, stopChild c = c := by
        intro c hc
        have hex : c.exited = true := by
          have := h c hc
          simp only [is_running, Bool.not_eq_false'] at this
          exact this
        cases c
        simp only [stopChild]
        simp_all
      calc wp.processes.map stopChild = wp.processes.map id :=
            List.map_congr_left hfix
        _ = wp.processes := List.map_id _
    cases wp with
    | mk consumer processes =>
      simp only [WorkerProcess.terminateState] at *
      rw [hmap]

/-- Witness for C8: terminating a unit whose single child has already
exited leaves the unit unchanged. -/
theorem terminate_noop_on_stopped_witness :
    WorkerProcess.terminateState ⟨"export_consumer", [⟨true, some 2⟩]⟩ =
      ⟨"export_consumer", [⟨true, some 2⟩]⟩ := by
  have h := terminate_noop_on_stopped ⟨"export_consumer", [⟨true, some 2⟩]⟩
    (by intro c hc; simp at hc; rw [hc]; rfl)
  exact h.2.2

/-- C3 counterexample: the claim says the handle sequence is empty after
`terminate()` returns, but `terminate` mutates the children in place and
never shrinks the vector: a unit with one (already exited) child still
holds one handle afterwards. -/
theorem terminate_keeps_handle_sequence_cex :
    (WorkerProcess.terminateState ⟨"export_consumer", [⟨true, none⟩]⟩).processes
      ≠ [] := by
  decide

/-- C3 amended: after `terminate()` returns the handle sequence keeps its
length — it is not emptied — and every handle in it refers to a process the
OS reports as no longer running; the sequence is replaced by the fresh
handles spawned by `run_worker` only on a subsequent restart. -/
theorem terminate_marks_handles_exited (wp : WorkerProcess) :
    (wp.terminateState).processes.length = wp.processes.length ∧
    (∀ c ∈ (wp.terminateState).processes, is_running c = false) ∧
    (∀ fresh : List ChildState, ((wp.restart fresh).2).processes = fresh) := by
  refine ⟨by simp [WorkerProcess.terminateState], ?_, fun fresh => rfl⟩
  intro c hc
  simp only [WorkerProcess.terminateState] at hc
  obtain ⟨c0, _, rfl⟩ := List.mem_map.mp hc
  rfl

/-- Witness for C3 (amended) at a concrete unit with one live child. -/
theorem terminate_marks_handles_exited_witness :
    (WorkerProcess.terminateState ⟨"export_consumer", [⟨false, none⟩]⟩).processes.length
      = 1 := by
  have h := (terminate_marks_handles_exited ⟨"export_consumer", [⟨false, none⟩]⟩).1
  simpa using h

/-- C4: with a non-empty handle sequence, `ensure_running` restarts the
unit — terminating it and replacing all of its instances with the fresh
`run_worker` handles — exactly when at least one owned process reports
exited; when every owned process reports alive it is a no-op leaving the
processes unchanged. -/
theorem ensure_running_restarts_iff_unhealthy (wp : WorkerProcess)
    (fresh : List ChildState) (_hne : wp.processes ≠ []) :
    ((∃ c ∈ wp.processes, is_running c = false) →
      wp.ensure_running fresh = wp.restart fresh ∧
      (wp.ensure_running fresh).2.processes = fresh) ∧
    ((∀ c ∈ wp.processes, is_running c = true) →
      wp.ensure_running fresh = ([], wp)) := by
  constructor
  · rintro ⟨c, hc, hdead⟩
    have hall : wp.processes.all is_running = false := by
      rw [List.all_eq_false]
      exact ⟨c, hc, by simp [hdead]⟩
    constructor
    · simp [WorkerProcess.ensure_running, hall]
    · simp [WorkerProcess.ensure_running, hall, WorkerProcess.restart]
  · intro halive
    have hall : wp.processes.all is_running = true := by
      rw [List.all_eq_true]
      exact halive
    simp [WorkerProcess.ensure_running, hall]

/-- Witness for C4: a unit whose single child has exited is restarted and
ends up owning exactly the fresh handles. -/
theorem ensure_running_restarts_iff_unhealthy_witness :
    WorkerProcess.ensure_running ⟨"export_consumer", [⟨true, none⟩]⟩ [⟨false, none⟩] =
      WorkerProcess.restart ⟨"export_consumer", [⟨true, none⟩]⟩ [⟨false, none⟩] := by
  have h := ensure_running_restarts_iff_unhealthy ⟨"export_consumer", [⟨true, none⟩]⟩
    [⟨false, none⟩] (by simp)
  exact (h.1 ⟨⟨true, none⟩, by simp, rfl⟩).1

/-- C10: a `WorkerProcess` with an empty handle sequence is treated as
healthy — the `all` check over an empty iterator is vacuously true, so
`ensure_running` never restarts it; and such units arise, since `validate`
accepts a `multiple_processes` value of `0` and `run_worker` then spawns
zero instances. -/
theorem empty_unit_never_restarted :
    (∀ (wp : WorkerProcess) (fresh : List ChildState), wp.processes = [] →
      wp.ensure_running fresh = ([], wp)) ∧
    cfgZeroInstances.validate = .ok () ∧
    run_worker_commands ctxZeroInstances "export_consumer" = [] := by
  refine ⟨?_, rfl, rfl⟩
  intro wp fresh h
  simp [WorkerProcess.ensure_running, h]

/-- Witness for C10: `ensure_running` on a concrete zero-instance unit is a
no-op. -/
theorem empty_unit_never_restarted_witness :
    WorkerProcess.ensure_running ⟨"export_consumer", []⟩ [⟨false, none⟩] =
      ([], ⟨"export_consumer", []⟩) :=
  empty_unit_never_restarted.1 ⟨"export_consumer", []⟩ [⟨false, none⟩] rfl

/-- C5: for every context whose consumer configuration passed validation,
`run_worker` launches exactly `N` instances where `N` is the consumer's
`multiple_processes` value (defaulting to `1` when no entry exists), and
instance `i` is launched with the consumer name, the `--max-messages` cap,
and — when `N > 1` — its own zero-based index after `--multi-process`,
while for `N = 1` it gets `--single-thread` instead. -/
theorem run_worker_instances (ctx : DaemonContext) (consumer : String)
    (hv : ctx.consumer_config.validate = .ok ()) :
    0 ≤ number_of_processes ctx consumer ∧
    (hashmap_get ctx.consumer_config.multiple_processes consumer = none →
      number_of_processes ctx consumer = 1) ∧
    (run_worker_commands ctx consumer).length =
      (number_of_processes ctx consumer).toNat ∧
    (∀ i (h : i < (run_worker_commands ctx consumer).length),
      ((run_worker_commands ctx consumer).get ⟨i, h⟩).args =
        ["queue:consumers:start", consumer, "--max-messages",
          toString ctx.consumer_config.max_messages] ++
        (if 1 < number_of_processes ctx consumer then
          ["--multi-process", toString i]
        else ["--single-thread"])) := by
  refine ⟨?_, ?_, ?_, ?_⟩
  · unfold number_of_processes
    cases hg : hashmap_get ctx.consumer_config.multiple_processes consumer with
    | none => simp
    | some v =>
      have hmem : ∃ p ∈ ctx.consumer_config.multiple_processes, p.2 = v := by
        unfold hashmap_get at hg
        cases hf : List.find? (fun p => p.1 == consumer)
            ctx.consumer_config.multiple_processes with
        | none => rw [hf] at hg; simp at hg
        | some p =>
          rw [hf] at hg
          simp only [Option.map_some', Option.some.injEq] at hg
          exact ⟨p, List.mem_of_find?_eq_some hf, hg⟩
      obtain ⟨p, hp, rfl⟩ := hmem
      exact validate_ok_nonneg _ hv p hp
  · intro hnone
    simp [number_of_processes, hnone]
  · simp [run_worker_commands]
  · intro i h
    simp only [run_worker_commands, List.get_eq_getElem, List.getElem_map,
      List.getElem_range]
    rfl

/-- Witness for C5: in a validated context with no `multiple_processes`
entry, `run_worker` launches a single `--single-thread` instance. -/
theorem run_worker_instances_witness :
    (run_worker_commands ctxPlain "export_consumer").length = 1 := by
  have h := (run_worker_instances ctxPlain "export_consumer" rfl).2.2.1
  simpa using h

/-- C2 counterexample: the claim says a failed spawn during a mid-run
restart is logged and retried on the next tick and never crashes the
supervisor, but `run_worker` calls `spawn().expect(..)`: at a concrete
context and unit, a restart whose (single) spawn fails propagates the panic
out of `restart` — it does not return a degraded unit to retry. -/
theorem restart_spawn_failure_panics_cex :
    WorkerProcessSpawned.restartE (fun _ => false) ctxPlain
        ⟨"export_consumer", []⟩ =
      .error SPAWN_PANIC_MESSAGE := by
  rfl

/-- C2 amended: whenever any of the `run_worker` spawns performed by a
mid-run restart fails, the `expect` panic aborts `restart` (and with it the
whole single-threaded supervisor process) with the spawn panic message;
the failure is not caught, logged and retried. -/
theorem restart_spawn_failure_panics (env : Nat → Bool) (ctx : DaemonContext)
    (wp : WorkerProcessSpawned) (i : Nat)
    (hi : i < (number_of_processes ctx wp.consumer).toNat)
    (henv : env i = false) :
    wp.restartE env ctx = .error SPAWN_PANIC_MESSAGE := by
  have hlen : i < (run_worker_commands ctx wp.consumer).length := by
    simpa [run_worker_commands] using hi
  have hspawn := spawn_processes_fails env (run_worker_commands ctx wp.consumer) 0
    ⟨i, hlen, by simpa using henv⟩
  simp [WorkerProcessSpawned.restartE, run_workerE, hspawn]

/-- Witness for C2 (amended) at a concrete failing environment. -/
theorem restart_spawn_failure_panics_witness :
    WorkerProcessSpawned.restartE (fun i => decide (0 < i)) ctxPlain
        ⟨"product_action_attribute.update", [⟨"bin/magento", "/var/www/magento", []⟩]⟩ =
      .error SPAWN_PANIC_MESSAGE :=
  restart_spawn_failure_panics (fun i => decide (0 < i)) ctxPlain
    ⟨"product_action_attribute.update", [⟨"bin/magento", "/var/www/magento", []⟩]⟩
    0 (by decide) (by decide)

/-- C6 (code bug): `validate` is meant to require every
`multiple_processes` value to be a positive integer — its own error message
says the values "must be greater than zero" — but the check only rejects
negative values, so the non-positive value `0` passes validation while `-1`
is rejected with exactly that message. -/
theorem validate_accepts_zero_instances :
    cfgZeroInstances.validate = .ok () ∧
    cfgNegativeInstances.validate =
      .error ⟨"Magento consumer multiple_processes values must be greater than zero"⟩ := by
  exact ⟨rfl, rfl⟩

/-- C7: the main loop observes the shutdown flag only at the top of each
poll iteration; if the flag is first observed set at iteration `T`, then
every restart in the produced event trace happened in an iteration strictly
before `T`, with the flag observed unset there, and the trace ends with the
termination of every worker unit in creation order, after which the loop
exits. -/
theorem main_loop_shutdown (term : Nat → Bool) (running : Nat → Nat → Bool)
    (n T fuel : Nat) (hT : term T = true) (hmin : ∀ t, t < T → term t = false)
    (hfuel : T < fuel) :
    ∃ pre, main_loop term running n fuel 0 =
        pre ++ (List.range n).map (fun i => SupervisorEvent.terminated i) ∧
      ∀ e ∈ pre, ∃ t i, e = SupervisorEvent.restarted t i ∧ t < T ∧
        term t = false ∧ running t i = false := by
  obtain ⟨pre, hpre, hev⟩ := main_loop_events term running n T hT hmin fuel 0
    (by omega) (by omega)
  refine ⟨pre, hpre, ?_⟩
  intro e he
  obtain ⟨t, i, he', _, ht2, ht3, ht4⟩ := hev e he
  exact ⟨t, i, he', ht2, ht3, ht4⟩

/-- Witness for C7: two units, all children alive, flag first set at
iteration 1. -/
theorem main_loop_shutdown_witness :
    ∃ pre, main_loop (fun t => decide (1 ≤ t)) (fun _ _ => true) 2 2 0 =
        pre ++ (List.range 2).map (fun i => SupervisorEvent.terminated i) ∧
      ∀ e ∈ pre, ∃ t i, e = SupervisorEvent.restarted t i ∧ t < 1 ∧
        (fun t => decide (1 ≤ t)) t = false ∧ (fun _ _ => true : Nat → Nat → Bool) t i = false :=
  main_loop_shutdown (fun t => decide (1 ≤ t)) (fun _ _ => true) 2 1 2
    (by decide)
    (by
      intro t ht
      have h0 : t = 0 := by omega
      rw [h0]
      rfl)
    (by decide)

/-- C9: `read_consumer_list` returns exactly the non-empty lines of the
consumer-list command output, in order, except that when RabbitMQ is not
configured every reserved RabbitMQ consumer name is excluded; when it is
configured, all non-empty lines are included. -/
theorem read_consumer_list_matches_spec (stdout : String) (config : DaemonConfig) :
    read_consumer_list stdout config = read_consumer_list_spec stdout config := by
  unfold read_consumer_list read_consumer_list_spec
  cases h : config.rabbitmq_configured with
  | true => simp [h]
  | false => simp [h]
